import Mathlib

/-
Verification development for the auto-clear-cache repository
(src/vite-plugin-version.js).

The file shallowly embeds the two components:
  * `closeBundle` — the build hook of `versionPlugin` (lines 1-24 of the
    source), which writes a JSON version document to disk;
  * `checkVersionAndReload` — the runtime guard (lines 25-56), which
    fetches the version document, compares it against localStorage, and
    clears client state and reloads on mismatch.

Browser state (localStorage, the named CacheStorage entries, and the
side effects performed in order) is passed explicitly.  The environment
(outcome of the fetch, availability of storage and of the CacheStorage
API) is an explicit input.  Exceptions are modelled with `Except`; the
thrown value carries the state at the moment of the throw, since
mutations performed before a throw persist in JavaScript.
-/

namespace AutoClearCache

/-- Observable side effects of `checkVersionAndReload`, recorded in the
order they are performed:
`storageCleared` for `localStorage.clear()` (line 40),
`cacheDeleted n` for `caches.delete(n)` (line 45),
`reloadTriggered` for `location.reload()` (line 49),
`versionWritten k v` for `localStorage.setItem(k, v)` (line 52). -/
inductive GuardEvent where
  | storageCleared : GuardEvent
  | cacheDeleted : String → GuardEvent
  | reloadTriggered : GuardEvent
  | versionWritten : String → String → GuardEvent
deriving DecidableEq

/-- Browser-side state: the per-origin key/value store (association list,
most recent binding first), the names of the response caches, and the
log of effects performed so far. -/
structure BrowserState where
  store : List (String × String)
  cacheNames : List String
  events : List GuardEvent
deriving DecidableEq

/-- Outcome of `res.json()` on line 33: either the body is not valid
JSON (the promise rejects), or it parses to a document whose `version`
field is the given string (the string type is the documented interface
contract for the field). -/
inductive BodyParse where
  | malformed : BodyParse
  | versionField : String → BodyParse
deriving DecidableEq

/-- Outcome of `fetch(path, ...)` on line 32: the promise rejects
(network failure), or resolves with an HTTP status and a body. -/
inductive FetchResult where
  | reject : FetchResult
  | response : Nat → BodyParse → FetchResult
deriving DecidableEq

/-- The environment one run of the guard executes in: the result of the
single fetch, whether localStorage access succeeds (it throws in some
privacy modes), and whether the CacheStorage API exists
(`"caches" in window`, line 42). -/
structure GuardEnv where
  fetchResult : FetchResult
  storageOk : Bool
  hasCaches : Bool
deriving DecidableEq

/-- The options object of `checkVersionAndReload` (lines 25-30). -/
structure GuardOptions where
  path : String
  localStorageKey : String
  clearLocalStorage : Bool
  clearCache : Bool
deriving DecidableEq

/-- The destructuring defaults on lines 26-29. -/
def defaultGuardOptions : GuardOptions :=
  ⟨"/version.json", "app_version", true, true⟩

/-- `localStorage.getItem k`: the value bound to `k`, or `none` (JS
`null`) when the key is absent. -/
def lsGetItem (store : List (String × String)) (k : String) : Option String :=
  (store.find? (fun p => p.1 == k)).map Prod.snd

/-- `localStorage.setItem k v`: bind `k` to `v`, replacing any previous
binding. -/
def lsSetItem (store : List (String × String)) (k v : String) :
    List (String × String) :=
  (k, v) :: store.filter (fun p => p.1 != k)

/-- The condition `savedVersion && savedVersion !== version` on line 37.
`getItem` returns `null` for a missing key, and both `null` and the
empty string are falsy in JavaScript, so a stored empty string does not
enter the mismatch branch. -/
def mismatchCond (savedVersion : Option String) (version : String) : Bool :=
  match savedVersion with
  | none => false
  | some sv => sv != "" && sv != version

/-- The body of the `try` block of `checkVersionAndReload`
(lines 32-52), returning `Except.error` with the current state when a
step throws.  The HTTP status of the response is bound but never
inspected, exactly as in the source.  When `storageOk` is false the
first storage access (`getItem`, line 35) throws, so no later step
runs. -/
def checkVersionAndReloadTry (opts : GuardOptions) (env : GuardEnv)
    (st : BrowserState) : Except BrowserState BrowserState :=
  match env.fetchResult with
  | FetchResult.reject => Except.error st
  | FetchResult.response _status body =>
    match body with
    | BodyParse.malformed => Except.error st
    | BodyParse.versionField version =>
      if !env.storageOk then Except.error st
      else
        let savedVersion := lsGetItem st.store opts.localStorageKey
        let st2 : BrowserState :=
          if mismatchCond savedVersion version then
            let stA : BrowserState :=
              if opts.clearLocalStorage then
                ⟨[], st.cacheNames, st.events ++ [GuardEvent.storageCleared]⟩
              else st
            let stB : BrowserState :=
              if opts.clearCache && env.hasCaches then
                ⟨stA.store, [],
                 stA.events ++ stA.cacheNames.map GuardEvent.cacheDeleted⟩
              else stA
            ⟨stB.store, stB.cacheNames,
             stB.events ++ [GuardEvent.reloadTriggered]⟩
          else st
        Except.ok
          ⟨lsSetItem st2.store opts.localStorageKey version,
           st2.cacheNames,
           st2.events ++ [GuardEvent.versionWritten opts.localStorageKey version]⟩

/-- `checkVersionAndReload` (lines 25-56): the `try` body wrapped in the
`catch` of lines 53-55, which logs the error and swallows it, so the
function always resolves with a state and never rethrows. -/
def checkVersionAndReload (opts : GuardOptions) (env : GuardEnv)
    (st : BrowserState) : BrowserState :=
  match checkVersionAndReloadTry opts env st with
  | Except.ok s => s
  | Except.error s => s

/-- Recognizer for the reload event. -/
def isReload : GuardEvent → Bool
  | GuardEvent.reloadTriggered => true
  | _ => false

/-- Number of reloads recorded in an event log. -/
def reloadCount (es : List GuardEvent) : Nat :=
  es.countP isReload

/- ## Version Emitter (the Vite plugin) -/

/-- The options object of `versionPlugin` (line 1):
`{ fileName?, outDir? }`. -/
structure EmitterOptions where
  fileName : Option String
  outDir : Option String
deriving DecidableEq

/-- Build-time environment: the value of `Date.now()` at the hook run
and whether `writeFileSync` succeeds. -/
structure EmitterEnv where
  now : Nat
  writeOk : Bool
deriving DecidableEq

/-- JS `a || d` for an optional string option: both `undefined` and the
empty string are falsy and fall back to the default. -/
def orElseDefault (o : Option String) (d : String) : String :=
  match o with
  | none => d
  | some s => if s == "" then d else s

/-- `JSON.stringify(\x7b version \x7d, null, 2)` (line 17) for a version
string made of plain characters: a two-space-indented JSON document with
the single field `version`. -/
def jsonVersionDoc (version : String) : String :=
  "\x7b\n  \"version\": \"" ++ version ++ "\"\n\x7d"

/-- `resolve(outDir, fileName)` (line 15), as the written path relative
to the working directory for a relative `outDir`. -/
def pathResolve (outDir fileName : String) : String :=
  outDir ++ "/" ++ fileName

/-- `writeFileSync` (line 17): bind the path to the content, fully
replacing any file previously at that path. -/
def fsWrite (files : List (String × String)) (path content : String) :
    List (String × String) :=
  (path, content) :: files.filter (fun p => p.1 != path)

/-- Content of the file at `path`, if any. -/
def fsRead (files : List (String × String)) (path : String) : Option String :=
  (files.find? (fun p => p.1 == path)).map Prod.snd

/-- The `closeBundle` hook returned by `versionPlugin` (lines 7-22).
`fileName` is computed at plugin construction (line 2), `outDir` inside
the hook (line 14); a write failure is caught and swallowed
(lines 19-21), leaving the file system unchanged. -/
def closeBundle (opts : EmitterOptions) (env : EmitterEnv)
    (files : List (String × String)) : List (String × String) :=
  let fileName := orElseDefault opts.fileName "version.json"
  if env.writeOk then
    let version := toString env.now
    let outDir := orElseDefault opts.outDir "dist"
    let filePath := pathResolve outDir fileName
    fsWrite files filePath (jsonVersionDoc version)
  else
    files

/- ## Helper lemmas -/

lemma lsGetItem_set_self (s : List (String × String)) (k v : String) :
    lsGetItem (lsSetItem s k v) k = some v := by
  simp [lsGetItem, lsSetItem]

lemma lsSetItem_idem (s : List (String × String)) (k v : String) :
    lsSetItem (lsSetItem s k v) k v = lsSetItem s k v := by
  simp [lsSetItem, List.filter_filter]

lemma fsRead_write_self (files : List (String × String)) (p c : String) :
    fsRead (fsWrite files p c) p = some c := by
  simp [fsRead, fsWrite]

/-- A run whose fetch and JSON parse succeed and whose storage is
accessible, and whose stored/fetched pair does not satisfy the mismatch
condition, only appends the version write. -/
lemma run_no_mismatch (opts : GuardOptions) (status : Nat) (v : String)
    (hc : Bool) (st : BrowserState)
    (h : mismatchCond (lsGetItem st.store opts.localStorageKey) v = false) :
    checkVersionAndReload opts
        ⟨FetchResult.response status (BodyParse.versionField v), true, hc⟩ st =
      ⟨lsSetItem st.store opts.localStorageKey v, st.cacheNames,
       st.events ++ [GuardEvent.versionWritten opts.localStorageKey v]⟩ := by
  simp [checkVersionAndReload, checkVersionAndReloadTry, h]

/-- A run whose fetch and JSON parse succeed and whose storage is
accessible, on a mismatch: clear storage if enabled, delete the caches
if enabled and available, record the reload, then write the version. -/
lemma run_mismatch (opts : GuardOptions) (status : Nat) (v : String)
    (hc : Bool) (st : BrowserState)
    (h : mismatchCond (lsGetItem st.store opts.localStorageKey) v = true) :
    checkVersionAndReload opts
        ⟨FetchResult.response status (BodyParse.versionField v), true, hc⟩ st =
      ⟨lsSetItem (if opts.clearLocalStorage then [] else st.store)
         opts.localStorageKey v,
       if opts.clearCache && hc then [] else st.cacheNames,
       st.events ++ (if opts.clearLocalStorage then [GuardEvent.storageCleared] else [])
         ++ (if opts.clearCache && hc then st.cacheNames.map GuardEvent.cacheDeleted else [])
         ++ [GuardEvent.reloadTriggered,
             GuardEvent.versionWritten opts.localStorageKey v]⟩ := by
  cases hcl : opts.clearLocalStorage <;> cases hcc : opts.clearCache <;>
    cases hc <;>
    simp [checkVersionAndReload, checkVersionAndReloadTry, h, hcl, hcc]

/-- Any failing step (fetch rejection, malformed body, storage denial)
throws before any mutation, and the catch swallows it, so the state is
returned unchanged. -/
lemma run_failure (opts : GuardOptions) (env : GuardEnv) (st : BrowserState)
    (h : env.fetchResult = FetchResult.reject ∨
         (∃ s, env.fetchResult = FetchResult.response s BodyParse.malformed) ∨
         env.storageOk = false) :
    checkVersionAndReload opts env st = st := by
  obtain ⟨fr, ok, hc⟩ := env
  rcases h with h | ⟨s, h⟩ | h
  · subst h; rfl
  · simp only at h; subst h; rfl
  · simp only at h; subst h
    cases fr with
    | reject => rfl
    | response s b => cases b <;> rfl

lemma reloadCount_append (l1 l2 : List GuardEvent) :
    reloadCount (l1 ++ l2) = reloadCount l1 + reloadCount l2 := by
  simp [reloadCount, List.countP_append]

lemma reloadCount_cacheMap (cs : List String) :
    reloadCount (cs.map GuardEvent.cacheDeleted) = 0 := by
  induction cs with
  | nil => rfl
  | cons a t ih => simp [reloadCount, List.countP_cons, isReload]

lemma getLast?_append_single {α : Type} (l : List α) (a : α) :
    (l ++ [a]).getLast? = some a := by
  induction l with
  | nil => rfl
  | cons b t ih => simp [List.getLast?]

lemma getLast?_append_pair {α : Type} (l1 l2 : List α) (a b : α) :
    (l1 ++ (l2 ++ [a, b])).getLast? = some b := by
  simp [List.append_assoc]

lemma countP_isReload_cacheMap (cs : List String) :
    List.countP isReload (cs.map GuardEvent.cacheDeleted) = 0 := by
  induction cs with
  | nil => rfl
  | cons a t ih => simp [List.countP_cons, isReload, ih]

/- ## Claims -/

/-- C1, counterexample: the claim quantifies over every pair of distinct
version identifiers, but with Stored Version the empty string (distinct
from the fetched "x") and both toggles at their defaults, the run
triggers no reload and deletes no cache, because line 37 guards the
mismatch branch with the JS truthiness of the stored value and the
empty string is falsy. -/
theorem c1_empty_stored_counterexample :
    ("" ≠ "x") ∧
    reloadCount (checkVersionAndReload defaultGuardOptions
      ⟨FetchResult.response 200 (BodyParse.versionField "x"), true, true⟩
      ⟨[("app_version", "")], ["assets"], []⟩).events = 0 ∧
    (checkVersionAndReload defaultGuardOptions
      ⟨FetchResult.response 200 (BodyParse.versionField "x"), true, true⟩
      ⟨[("app_version", "")], ["assets"], []⟩).cacheNames = ["assets"] := by
  refine ⟨by decide, ?_, ?_⟩ <;> rfl

/-- C1 (amended): for every pair of distinct version identifiers v1, v2
with v1 nonempty, a run with Stored Version v1, fetched identifier v2
and both toggles at their defaults triggers exactly one reload, and
before that reload it erases all key/value storage and deletes every
named cache: the event trace is storage clearing, then one deletion per
named cache, then the reload, then the version write, and the final
state has only the freshly written version key and no caches. -/
theorem c1_mismatch_clears_then_reloads (v1 v2 : String) (status : Nat)
    (store : List (String × String)) (cs : List String)
    (h0 : v1 ≠ "") (h1 : v1 ≠ v2)
    (hs : lsGetItem store "app_version" = some v1) :
    checkVersionAndReload defaultGuardOptions
        ⟨FetchResult.response status (BodyParse.versionField v2), true, true⟩
        ⟨store, cs, []⟩ =
      ⟨[("app_version", v2)], [],
       [GuardEvent.storageCleared] ++ cs.map GuardEvent.cacheDeleted
         ++ [GuardEvent.reloadTriggered,
             GuardEvent.versionWritten "app_version" v2]⟩ ∧
    reloadCount ([GuardEvent.storageCleared] ++ cs.map GuardEvent.cacheDeleted
         ++ [GuardEvent.reloadTriggered,
             GuardEvent.versionWritten "app_version" v2]) = 1 := by
  have hm : mismatchCond (lsGetItem store "app_version") v2 = true := by
    rw [hs]; simp [mismatchCond, h0, h1]
  constructor
  · have h := run_mismatch defaultGuardOptions status v2 true ⟨store, cs, []⟩ hm
    simpa [defaultGuardOptions, lsSetItem] using h
  · simp [reloadCount, List.countP_append, List.countP_cons, isReload,
      countP_isReload_cacheMap]

/-- C1 witness at v1 = "1", v2 = "2", one extra storage key and one
named cache. -/
theorem c1_mismatch_clears_then_reloads_witness :
    checkVersionAndReload defaultGuardOptions
        ⟨FetchResult.response 200 (BodyParse.versionField "2"), true, true⟩
        ⟨[("app_version", "1"), ("theme", "dark")], ["assets"], []⟩ =
      ⟨[("app_version", "2")], [],
       [GuardEvent.storageCleared]
         ++ ["assets"].map GuardEvent.cacheDeleted
         ++ [GuardEvent.reloadTriggered,
             GuardEvent.versionWritten "app_version" "2"]⟩ ∧
    reloadCount ([GuardEvent.storageCleared]
         ++ ["assets"].map GuardEvent.cacheDeleted
         ++ [GuardEvent.reloadTriggered,
             GuardEvent.versionWritten "app_version" "2"]) = 1 :=
  c1_mismatch_clears_then_reloads "1" "2" 200
    [("app_version", "1"), ("theme", "dark")] ["assets"]
    (by decide) (by decide) (by decide)

/-- C2, counterexample: the claim says any non-200 status is treated as
failure with no reload and no storage mutation, but the source never
inspects the status: a 500 response whose body is the version document
"2", against Stored Version "1", triggers a reload and overwrites the
Stored Version. -/
theorem c2_status_ignored_counterexample :
    ((500 : Nat) ≠ 200) ∧
    reloadCount (checkVersionAndReload defaultGuardOptions
      ⟨FetchResult.response 500 (BodyParse.versionField "2"), true, true⟩
      ⟨[("app_version", "1")], [], []⟩).events = 1 ∧
    lsGetItem (checkVersionAndReload defaultGuardOptions
      ⟨FetchResult.response 500 (BodyParse.versionField "2"), true, true⟩
      ⟨[("app_version", "1")], [], []⟩).store "app_version" = some "2" := by
  refine ⟨by decide, ?_, ?_⟩ <;> rfl

/-- C2 (amended): the HTTP status is never inspected, so the run's
outcome is independent of it; the failure treatment (caught, no reload,
no mutation) applies exactly to a body that is not valid JSON (or a
rejected fetch), whatever the status. -/
theorem c2_status_never_inspected :
    (∀ (opts : GuardOptions) (s1 s2 : Nat) (body : BodyParse)
       (ok hc : Bool) (st : BrowserState),
       checkVersionAndReload opts ⟨FetchResult.response s1 body, ok, hc⟩ st =
       checkVersionAndReload opts ⟨FetchResult.response s2 body, ok, hc⟩ st) ∧
    (∀ (opts : GuardOptions) (s : Nat) (ok hc : Bool) (st : BrowserState),
       checkVersionAndReload opts
         ⟨FetchResult.response s BodyParse.malformed, ok, hc⟩ st = st) :=
  ⟨fun _ _ _ _ _ _ _ => rfl,
   fun opts s ok hc st =>
     run_failure opts ⟨FetchResult.response s BodyParse.malformed, ok, hc⟩ st
       (Or.inr (Or.inl ⟨s, rfl⟩))⟩

/-- C3: every internal failure — fetch rejection, malformed JSON body,
storage access denial — is caught by the catch of lines 53-55, so the
function (modelled as a total function, the catch making it so) returns
the state unchanged: no exception propagates, no reload happens, no
mutation survives. -/
theorem c3_errors_swallowed (opts : GuardOptions) (env : GuardEnv)
    (st : BrowserState)
    (h : env.fetchResult = FetchResult.reject ∨
         (∃ s, env.fetchResult = FetchResult.response s BodyParse.malformed) ∨
         env.storageOk = false) :
    checkVersionAndReload opts env st = st :=
  run_failure opts env st h

/-- C3 witness: a rejected fetch leaves a concrete state unchanged. -/
theorem c3_errors_swallowed_witness :
    checkVersionAndReload defaultGuardOptions
      ⟨FetchResult.reject, true, true⟩
      ⟨[("app_version", "1")], ["assets"], []⟩ =
      ⟨[("app_version", "1")], ["assets"], []⟩ :=
  c3_errors_swallowed defaultGuardOptions ⟨FetchResult.reject, true, true⟩
    ⟨[("app_version", "1")], ["assets"], []⟩ (Or.inl rfl)

/-- C4: when the fetch rejects or the body is not valid JSON, the
persistent state is unchanged: the key/value store, the named caches and
the event log are all exactly as before, so nothing was written,
cleared, deleted or reloaded. -/
theorem c4_failed_fetch_leaves_state (opts : GuardOptions) (env : GuardEnv)
    (st : BrowserState)
    (h : env.fetchResult = FetchResult.reject ∨
         (∃ s, env.fetchResult = FetchResult.response s BodyParse.malformed)) :
    (checkVersionAndReload opts env st).store = st.store ∧
    (checkVersionAndReload opts env st).cacheNames = st.cacheNames ∧
    (checkVersionAndReload opts env st).events = st.events := by
  rw [run_failure opts env st (h.imp id Or.inl)]
  exact ⟨rfl, rfl, rfl⟩

/-- C4 witness: a malformed body over a concrete state. -/
theorem c4_failed_fetch_leaves_state_witness :
    (checkVersionAndReload defaultGuardOptions
       ⟨FetchResult.response 200 BodyParse.malformed, true, true⟩
       ⟨[("app_version", "1")], ["assets"], []⟩).store
      = [("app_version", "1")] ∧
    (checkVersionAndReload defaultGuardOptions
       ⟨FetchResult.response 200 BodyParse.malformed, true, true⟩
       ⟨[("app_version", "1")], ["assets"], []⟩).cacheNames = ["assets"] ∧
    (checkVersionAndReload defaultGuardOptions
       ⟨FetchResult.response 200 BodyParse.malformed, true, true⟩
       ⟨[("app_version", "1")], ["assets"], []⟩).events = [] :=
  c4_failed_fetch_leaves_state defaultGuardOptions
    ⟨FetchResult.response 200 BodyParse.malformed, true, true⟩
    ⟨[("app_version", "1")], ["assets"], []⟩ (Or.inr ⟨200, rfl⟩)

/-- C5: a first run, with no Stored Version under the configured key,
performs no reload and no clearing — its only recorded effect is the
version write — and terminates with the Stored Version equal to the
fetched identifier. -/
theorem c5_first_run_stores_version (opts : GuardOptions) (status : Nat)
    (v : String) (store : List (String × String)) (cs : List String)
    (hc : Bool) (h : lsGetItem store opts.localStorageKey = none) :
    checkVersionAndReload opts
        ⟨FetchResult.response status (BodyParse.versionField v), true, hc⟩
        ⟨store, cs, []⟩ =
      ⟨lsSetItem store opts.localStorageKey v, cs,
       [GuardEvent.versionWritten opts.localStorageKey v]⟩ ∧
    lsGetItem (lsSetItem store opts.localStorageKey v) opts.localStorageKey
      = some v := by
  have hm : mismatchCond (lsGetItem store opts.localStorageKey) v = false := by
    rw [h]; rfl
  constructor
  · simpa using run_no_mismatch opts status v hc ⟨store, cs, []⟩ hm
  · exact lsGetItem_set_self store opts.localStorageKey v

/-- C5 witness: empty storage, fetched identifier "7". -/
theorem c5_first_run_stores_version_witness :
    checkVersionAndReload defaultGuardOptions
        ⟨FetchResult.response 200 (BodyParse.versionField "7"), true, true⟩
        ⟨[], [], []⟩ =
      ⟨[("app_version", "7")], [],
       [GuardEvent.versionWritten "app_version" "7"]⟩ ∧
    lsGetItem [("app_version", "7")] "app_version" = some "7" := by
  have h := c5_first_run_stores_version defaultGuardOptions 200 "7" [] [] true rfl
  exact h

/-- C6: a run fetching the same identifier v as is already stored
performs no reload, no storage clearing and no cache deletion — only
the version write — and a second such run on the resulting persistent
state produces that same persistent state again (idempotence), with the
Stored Version still v. -/
theorem c6_same_version_is_noop (opts : GuardOptions) (status : Nat)
    (v : String) (store : List (String × String)) (cs : List String)
    (hc : Bool) (h : lsGetItem store opts.localStorageKey = some v) :
    checkVersionAndReload opts
        ⟨FetchResult.response status (BodyParse.versionField v), true, hc⟩
        ⟨store, cs, []⟩ =
      ⟨lsSetItem store opts.localStorageKey v, cs,
       [GuardEvent.versionWritten opts.localStorageKey v]⟩ ∧
    lsGetItem (lsSetItem store opts.localStorageKey v) opts.localStorageKey
      = some v ∧
    checkVersionAndReload opts
        ⟨FetchResult.response status (BodyParse.versionField v), true, hc⟩
        ⟨lsSetItem store opts.localStorageKey v, cs, []⟩ =
      ⟨lsSetItem store opts.localStorageKey v, cs,
       [GuardEvent.versionWritten opts.localStorageKey v]⟩ := by
  have hm : mismatchCond (lsGetItem store opts.localStorageKey) v = false := by
    rw [h]; simp [mismatchCond]
  have hm2 : mismatchCond
      (lsGetItem (lsSetItem store opts.localStorageKey v) opts.localStorageKey)
      v = false := by
    rw [lsGetItem_set_self]; simp [mismatchCond]
  refine ⟨?_, lsGetItem_set_self store opts.localStorageKey v, ?_⟩
  · simpa using run_no_mismatch opts status v hc ⟨store, cs, []⟩ hm
  · have h2 := run_no_mismatch opts status v hc
      ⟨lsSetItem store opts.localStorageKey v, cs, []⟩ hm2
    simpa [lsSetItem_idem] using h2

/-- C6 witness: stored and fetched identifier both "9". -/
theorem c6_same_version_is_noop_witness :
    checkVersionAndReload defaultGuardOptions
        ⟨FetchResult.response 200 (BodyParse.versionField "9"), true, true⟩
        ⟨[("app_version", "9")], ["assets"], []⟩ =
      ⟨[("app_version", "9")], ["assets"],
       [GuardEvent.versionWritten "app_version" "9"]⟩ ∧
    lsGetItem [("app_version", "9")] "app_version" = some "9" ∧
    checkVersionAndReload defaultGuardOptions
        ⟨FetchResult.response 200 (BodyParse.versionField "9"), true, true⟩
        ⟨[("app_version", "9")], ["assets"], []⟩ =
      ⟨[("app_version", "9")], ["assets"],
       [GuardEvent.versionWritten "app_version" "9"]⟩ := by
  have h := c6_same_version_is_noop defaultGuardOptions 200 "9"
    [("app_version", "9")] ["assets"] true rfl
  exact h

/-- C7: on a mismatch each clearing step is gated only by its own toggle
and the reload happens regardless.  With clearLocalStorage off (and
clearCache arbitrary) the storage is never wiped wholesale — the final
store is the original with only the version key updated — yet exactly
one reload occurs.  With clearCache off (and clearLocalStorage
arbitrary) no cache is deleted and the cache names are untouched, yet
exactly one reload occurs. -/
theorem c7_toggles_independent (pa k v1 v2 : String) (status : Nat)
    (store : List (String × String)) (cs : List String) (b : Bool)
    (h0 : v1 ≠ "") (h1 : v1 ≠ v2) (hs : lsGetItem store k = some v1) :
    (GuardEvent.storageCleared ∉
        (checkVersionAndReload ⟨pa, k, false, b⟩
          ⟨FetchResult.response status (BodyParse.versionField v2), true, true⟩
          ⟨store, cs, []⟩).events ∧
      (checkVersionAndReload ⟨pa, k, false, b⟩
          ⟨FetchResult.response status (BodyParse.versionField v2), true, true⟩
          ⟨store, cs, []⟩).store = lsSetItem store k v2 ∧
      reloadCount (checkVersionAndReload ⟨pa, k, false, b⟩
          ⟨FetchResult.response status (BodyParse.versionField v2), true, true⟩
          ⟨store, cs, []⟩).events = 1) ∧
    ((checkVersionAndReload ⟨pa, k, b, false⟩
          ⟨FetchResult.response status (BodyParse.versionField v2), true, true⟩
          ⟨store, cs, []⟩).cacheNames = cs ∧
      (∀ n, GuardEvent.cacheDeleted n ∉
        (checkVersionAndReload ⟨pa, k, b, false⟩
          ⟨FetchResult.response status (BodyParse.versionField v2), true, true⟩
          ⟨store, cs, []⟩).events) ∧
      reloadCount (checkVersionAndReload ⟨pa, k, b, false⟩
          ⟨FetchResult.response status (BodyParse.versionField v2), true, true⟩
          ⟨store, cs, []⟩).events = 1) := by
  have hm : mismatchCond (lsGetItem store k) v2 = true := by
    rw [hs]; simp [mismatchCond, h0, h1]
  cases b
  · have e := run_mismatch ⟨pa, k, false, false⟩ status v2 true
      ⟨store, cs, []⟩ hm
    rw [e]
    refine ⟨⟨?_, ?_, ?_⟩, ?_, ?_, ?_⟩ <;>
      simp [reloadCount, List.countP_append, List.countP_cons, isReload,
        countP_isReload_cacheMap]
  · have e1 := run_mismatch ⟨pa, k, false, true⟩ status v2 true
      ⟨store, cs, []⟩ hm
    have e2 := run_mismatch ⟨pa, k, true, false⟩ status v2 true
      ⟨store, cs, []⟩ hm
    rw [e1, e2]
    refine ⟨⟨?_, ?_, ?_⟩, ?_, ?_, ?_⟩ <;>
      simp [reloadCount, List.countP_append, List.countP_cons, isReload,
        countP_isReload_cacheMap]

/-- C7 witness at Stored Version "1", fetched "2", extra key "theme",
one named cache, with the other toggle left on. -/
theorem c7_toggles_independent_witness :
    (GuardEvent.storageCleared ∉
        (checkVersionAndReload ⟨"/version.json", "app_version", false, true⟩
          ⟨FetchResult.response 200 (BodyParse.versionField "2"), true, true⟩
          ⟨[("app_version", "1"), ("theme", "dark")], ["assets"], []⟩).events ∧
      (checkVersionAndReload ⟨"/version.json", "app_version", false, true⟩
          ⟨FetchResult.response 200 (BodyParse.versionField "2"), true, true⟩
          ⟨[("app_version", "1"), ("theme", "dark")], ["assets"], []⟩).store
        = lsSetItem [("app_version", "1"), ("theme", "dark")] "app_version" "2" ∧
      reloadCount (checkVersionAndReload ⟨"/version.json", "app_version", false, true⟩
          ⟨FetchResult.response 200 (BodyParse.versionField "2"), true, true⟩
          ⟨[("app_version", "1"), ("theme", "dark")], ["assets"], []⟩).events = 1) ∧
    ((checkVersionAndReload ⟨"/version.json", "app_version", true, false⟩
          ⟨FetchResult.response 200 (BodyParse.versionField "2"), true, true⟩
          ⟨[("app_version", "1"), ("theme", "dark")], ["assets"], []⟩).cacheNames
        = ["assets"] ∧
      (∀ n, GuardEvent.cacheDeleted n ∉
        (checkVersionAndReload ⟨"/version.json", "app_version", true, false⟩
          ⟨FetchResult.response 200 (BodyParse.versionField "2"), true, true⟩
          ⟨[("app_version", "1"), ("theme", "dark")], ["assets"], []⟩).events) ∧
      reloadCount (checkVersionAndReload ⟨"/version.json", "app_version", true, false⟩
          ⟨FetchResult.response 200 (BodyParse.versionField "2"), true, true⟩
          ⟨[("app_version", "1"), ("theme", "dark")], ["assets"], []⟩).events = 1) :=
  c7_toggles_independent "/version.json" "app_version" "1" "2" 200
    [("app_version", "1"), ("theme", "dark")] ["assets"] true
    (by decide) (by decide) (by decide)

/-- C8: in every run whose fetch, JSON parse and storage accesses
succeed, the version write is the last recorded effect, and in the
mismatch branch the reload trigger is also recorded (hence, the write
being last, the write is sequenced after the reload trigger, not before
it). -/
theorem c8_version_write_is_last (opts : GuardOptions) (status : Nat)
    (v : String) (store : List (String × String)) (cs : List String)
    (hc : Bool) :
    ((checkVersionAndReload opts
        ⟨FetchResult.response status (BodyParse.versionField v), true, hc⟩
        ⟨store, cs, []⟩).events.getLast?
      = some (GuardEvent.versionWritten opts.localStorageKey v)) ∧
    (mismatchCond (lsGetItem store opts.localStorageKey) v = true →
      GuardEvent.reloadTriggered ∈
        (checkVersionAndReload opts
          ⟨FetchResult.response status (BodyParse.versionField v), true, hc⟩
          ⟨store, cs, []⟩).events) := by
  cases hm : mismatchCond (lsGetItem store opts.localStorageKey) v
  · rw [run_no_mismatch opts status v hc ⟨store, cs, []⟩ hm]
    refine ⟨by simp, ?_⟩
    intro hx
    simp at hx
  · rw [run_mismatch opts status v hc ⟨store, cs, []⟩ hm]
    refine ⟨?_, ?_⟩
    · simp [getLast?_append_pair]
    · intro _
      simp

/-- C8 witness at a concrete mismatch run. -/
theorem c8_version_write_is_last_witness :
    ((checkVersionAndReload defaultGuardOptions
        ⟨FetchResult.response 200 (BodyParse.versionField "2"), true, true⟩
        ⟨[("app_version", "1")], [], []⟩).events.getLast?
      = some (GuardEvent.versionWritten "app_version" "2")) ∧
    GuardEvent.reloadTriggered ∈
      (checkVersionAndReload defaultGuardOptions
        ⟨FetchResult.response 200 (BodyParse.versionField "2"), true, true⟩
        ⟨[("app_version", "1")], [], []⟩).events := by
  have h := c8_version_write_is_last defaultGuardOptions 200 "2"
    [("app_version", "1")] [] true
  exact ⟨h.1, h.2 (by decide)⟩

/-- C9: when the write succeeds, the closeBundle hook writes, at the
path obtained from the output directory (default "dist") and file name
(default "version.json"), the two-space-indented JSON document whose
single field version is the decimal rendering of the current clock
value, replacing whatever file was previously at that path; with both
options absent the path is "dist/version.json". -/
theorem c9_closeBundle_writes_version_doc (opts : EmitterOptions)
    (env : EmitterEnv) (files : List (String × String))
    (h : env.writeOk = true) :
    fsRead (closeBundle opts env files)
        (pathResolve (orElseDefault opts.outDir "dist")
          (orElseDefault opts.fileName "version.json"))
      = some (jsonVersionDoc (toString env.now)) ∧
    pathResolve (orElseDefault none "dist") (orElseDefault none "version.json")
      = "dist/version.json" := by
  refine ⟨?_, rfl⟩
  obtain ⟨now, wo⟩ := env
  simp only at h
  subst h
  simp [closeBundle, fsRead_write_self]

/-- C9 witness: default options, a prior file at the target path. -/
theorem c9_closeBundle_writes_version_doc_witness :
    fsRead (closeBundle ⟨none, none⟩ ⟨1720223342331, true⟩
        [("dist/version.json", "old")])
        (pathResolve (orElseDefault none "dist")
          (orElseDefault none "version.json"))
      = some (jsonVersionDoc (toString (1720223342331 : Nat))) ∧
    pathResolve (orElseDefault none "dist") (orElseDefault none "version.json")
      = "dist/version.json" :=
  c9_closeBundle_writes_version_doc ⟨none, none⟩ ⟨1720223342331, true⟩
    [("dist/version.json", "old")] rfl

/-- C10: when the CacheStorage API is absent, a mismatch run with
clearCache on skips the cache-deletion step — the cache names are
untouched and no deletion is recorded — while exactly one reload still
occurs, and the storage clearing still happens when its own toggle is
on. -/
theorem c10_no_cache_api_skips_deletion (pa k v1 v2 : String) (status : Nat)
    (store : List (String × String)) (cs : List String) (cl : Bool)
    (h0 : v1 ≠ "") (h1 : v1 ≠ v2) (hs : lsGetItem store k = some v1) :
    (checkVersionAndReload ⟨pa, k, cl, true⟩
        ⟨FetchResult.response status (BodyParse.versionField v2), true, false⟩
        ⟨store, cs, []⟩).cacheNames = cs ∧
    (∀ n, GuardEvent.cacheDeleted n ∉
      (checkVersionAndReload ⟨pa, k, cl, true⟩
        ⟨FetchResult.response status (BodyParse.versionField v2), true, false⟩
        ⟨store, cs, []⟩).events) ∧
    reloadCount (checkVersionAndReload ⟨pa, k, cl, true⟩
        ⟨FetchResult.response status (BodyParse.versionField v2), true, false⟩
        ⟨store, cs, []⟩).events = 1 ∧
    (cl = true → GuardEvent.storageCleared ∈
      (checkVersionAndReload ⟨pa, k, cl, true⟩
        ⟨FetchResult.response status (BodyParse.versionField v2), true, false⟩
        ⟨store, cs, []⟩).events) := by
  have hm : mismatchCond (lsGetItem store k) v2 = true := by
    rw [hs]; simp [mismatchCond, h0, h1]
  have e := run_mismatch ⟨pa, k, cl, true⟩ status v2 false ⟨store, cs, []⟩ hm
  rw [e]
  cases cl <;>
    refine ⟨?_, ?_, ?_, ?_⟩ <;>
      simp [reloadCount, List.countP_append, List.countP_cons, isReload]

/-- C10 witness: concrete mismatch with the CacheStorage API absent and
both toggles on. -/
theorem c10_no_cache_api_skips_deletion_witness :
    (checkVersionAndReload ⟨"/version.json", "app_version", true, true⟩
        ⟨FetchResult.response 200 (BodyParse.versionField "2"), true, false⟩
        ⟨[("app_version", "1")], ["assets"], []⟩).cacheNames = ["assets"] ∧
    GuardEvent.cacheDeleted "assets" ∉
      (checkVersionAndReload ⟨"/version.json", "app_version", true, true⟩
        ⟨FetchResult.response 200 (BodyParse.versionField "2"), true, false⟩
        ⟨[("app_version", "1")], ["assets"], []⟩).events ∧
    reloadCount (checkVersionAndReload ⟨"/version.json", "app_version", true, true⟩
        ⟨FetchResult.response 200 (BodyParse.versionField "2"), true, false⟩
        ⟨[("app_version", "1")], ["assets"], []⟩).events = 1 ∧
    GuardEvent.storageCleared ∈
      (checkVersionAndReload ⟨"/version.json", "app_version", true, true⟩
        ⟨FetchResult.response 200 (BodyParse.versionField "2"), true, false⟩
        ⟨[("app_version", "1")], ["assets"], []⟩).events := by
  have h := c10_no_cache_api_skips_deletion "/version.json" "app_version"
    "1" "2" 200 [("app_version", "1")] ["assets"] true
    (by decide) (by decide) (by decide)
  exact ⟨h.1, h.2.1 "assets", h.2.2.1, h.2.2.2 rfl⟩

end AutoClearCache
